import Mathlib

/-
Verification of the juju-gui-charm repository against its natural-language
specification.

Part 1 embeds the backend composition system of src/hooks/backend.py:
the mixin classes, the chain_methods / merge_properties helpers and the
Backend class.

Part 2 models the guiserver proxying WebSocket handler and its
authentication interceptor.  The deciding code (guiserver/handlers.py,
guiserver/auth.py, guiserver/clients.py) is not part of the provided
sources — only its test suite (src/server/guiserver/tests/test_handlers.py)
and its callers (src/server/guiserver/apps.py) are — so those definitions
are modelled from the specification, as indicated by their doc comments.
-/

/-! ## Part 1: the backend composition system (src/hooks/backend.py) -/

/-- Mixin classes instantiated by Backend.__init__ in src/hooks/backend.py.
Each Python mixin instance is represented by one constructor; the mixins
carry no state relevant to method dispatch, so a value of this type fully
determines which of install/start/stop is defined and which debs are
declared. -/
inductive Mixin
  | setUpMixin
  | improvMixin
  | sandboxMixin
  | pythonMixin
  | goMixin
  | guiMixin
  | haproxyApacheMixin
  | builtinServerMixin
deriving DecidableEq, Repr

/-- Whether getattr(type(mixin), 'install', None) is not None in backend.py:
SetUpMixin, GuiMixin, HaproxyApacheMixin and BuiltinServerMixin define
install directly; ImprovMixin and PythonMixin inherit it from
PythonInstallMixinBase; SandboxMixin and GoMixin have none. -/
def hasInstall : Mixin → Bool
  | .sandboxMixin => false
  | .goMixin => false
  | _ => true

/-- Whether getattr(type(mixin), 'start', None) is not None in backend.py. -/
def hasStart : Mixin → Bool
  | .improvMixin => true
  | .pythonMixin => true
  | .guiMixin => true
  | .haproxyApacheMixin => true
  | .builtinServerMixin => true
  | _ => false

/-- Whether getattr(type(mixin), 'stop', None) is not None in backend.py. -/
def hasStop : Mixin → Bool
  | .setUpMixin => true
  | .improvMixin => true
  | .pythonMixin => true
  | .haproxyApacheMixin => true
  | .builtinServerMixin => true
  | _ => false

/-- The debs tuple declared by each mixin class in backend.py;
getattr(type(mixin), 'debs', frozenset()) yields the empty collection for
mixins that declare none. -/
def mixinDebs : Mixin → List String
  | .improvMixin => ["zookeeper"]
  | .goMixin => ["python-yaml"]
  | .guiMixin => ["curl"]
  | .haproxyApacheMixin => ["apache2", "haproxy", "openssl"]
  | .builtinServerMixin => ["openssl", "python-bzrlib", "python-pip"]
  | _ => []

/-- The loop body of the callable returned by chain_methods in backend.py:
walk the given mixin sequence and invoke the named method on each mixin
that defines it.  The observable behaviour is the sequence of invoked
mixins, returned here as a list in call order. -/
def chainCalls (has : Mixin → Bool) : List Mixin → List Mixin
  | [] => []
  | m :: rest => if has m then m :: chainCalls has rest else chainCalls has rest

/-- chain_methods from backend.py: iterate over self.mixins, reversed when
the reverse flag is set, calling the named method on each mixin that has
it.  The result is the call trace. -/
def chain_methods (has : Mixin → Bool) (reverse : Bool) (mixins : List Mixin) : List Mixin :=
  chainCalls has (if reverse then mixins.reverse else mixins)

/-- merge_properties from backend.py: start from the empty set and fold in
set(getattr(type(mixin), name, frozenset())) for each mixin of self.mixins. -/
def merge_properties (mixins : List Mixin) : Finset String :=
  mixins.foldl (fun s m => s ∪ (mixinDebs m).toFinset) ∅

/-- The Backend class of backend.py, reduced to the state that its composed
methods read: the ordered mixins list built by Backend.__init__. -/
structure Backend where
  mixins : List Mixin

/-- Backend.install = chain_methods('install') in backend.py. -/
def Backend.install (bk : Backend) : List Mixin :=
  chain_methods hasInstall false bk.mixins

/-- Backend.start = chain_methods('start') in backend.py. -/
def Backend.start (bk : Backend) : List Mixin :=
  chain_methods hasStart false bk.mixins

/-- Backend.stop = chain_methods('stop', reverse=True) in backend.py. -/
def Backend.stop (bk : Backend) : List Mixin :=
  chain_methods hasStop true bk.mixins

/-- Backend.debs = merge_properties('debs') in backend.py. -/
def Backend.debs (bk : Backend) : Finset String :=
  merge_properties bk.mixins

/-- Configuration keys of the config dict read by Backend.__init__:
config['staging'] and config['sandbox'] (truthiness), and
config.get('builtin-server', False). -/
structure Config where
  staging : Bool
  sandbox : Bool
  builtin_server : Bool
deriving DecidableEq, Repr

/-- The tail of the mixins list around the protocol-specific second mixin,
as assembled by Backend.__init__: SetUpMixin first, then the given second
mixin, then GuiMixin, then BuiltinServerMixin when
config.get('builtin-server', False) is truthy and HaproxyApacheMixin
otherwise. -/
def mixinsList (second : Mixin) (config : Config) : List Mixin :=
  [Mixin.setUpMixin, second, Mixin.guiMixin,
    if config.builtin_server then Mixin.builtinServerMixin else Mixin.haproxyApacheMixin]

/-- Backend.__init__ from backend.py (lines 251-287), with
utils.legacy_juju() supplied as the is_legacy_juju argument: raises
ValueError when config['staging'] is truthy and the backend is not legacy
Juju, and otherwise assembles the mixins list. -/
def backendInit (config : Config) (is_legacy_juju : Bool) : Except String (List Mixin) :=
  if config.staging then
    if ¬ is_legacy_juju then Except.error "Unable to use staging with go backend"
    else Except.ok (mixinsList Mixin.improvMixin config)
  else if config.sandbox then Except.ok (mixinsList Mixin.sandboxMixin config)
  else Except.ok
    (mixinsList (if is_legacy_juju then Mixin.pythonMixin else Mixin.goMixin) config)

/-! ### Helper lemmas for Part 1 -/

lemma chainCalls_eq_filter (has : Mixin → Bool) (ms : List Mixin) :
    chainCalls has ms = ms.filter has := by
  induction ms with
  | nil => rfl
  | cons m rest ih =>
    by_cases h : has m <;> simp [chainCalls, List.filter, h, ih]

lemma mem_foldl_union (ms : List Mixin) (s : Finset String) (d : String) :
    d ∈ ms.foldl (fun s m => s ∪ (mixinDebs m).toFinset) s ↔
      d ∈ s ∨ ∃ m ∈ ms, d ∈ mixinDebs m := by
  induction ms generalizing s with
  | nil => simp
  | cons m rest ih =>
    simp [List.foldl_cons, ih, or_assoc, List.mem_toFinset]

lemma mem_merge_properties (ms : List Mixin) (d : String) :
    d ∈ merge_properties ms ↔ ∃ m ∈ ms, d ∈ mixinDebs m := by
  unfold merge_properties
  rw [mem_foldl_union]
  simp

/-! ### Claim theorems for Part 1 -/

/-- C9: for every Backend instance with mixin list m1..mn, Backend.install
and Backend.start invoke each mixin's install/start method (when defined)
in forward registration order, Backend.stop invokes each mixin's stop
method in reverse order, and Backend.debs equals the set union of the debs
declared by all mixins. -/
theorem backend_chain_order_and_debs_union (bk : Backend) :
    Backend.install bk = bk.mixins.filter hasInstall
  ∧ Backend.start bk = bk.mixins.filter hasStart
  ∧ Backend.stop bk = (bk.mixins.filter hasStop).reverse
  ∧ ∀ d : String, d ∈ Backend.debs bk ↔ ∃ m ∈ bk.mixins, d ∈ mixinDebs m := by
  refine ⟨?_, ?_, ?_, ?_⟩
  · simp [Backend.install, chain_methods, chainCalls_eq_filter]
  · simp [Backend.start, chain_methods, chainCalls_eq_filter]
  · simp [Backend.stop, chain_methods, chainCalls_eq_filter, List.filter_reverse]
  · intro d
    exact mem_merge_properties bk.mixins d

/-- C10: Backend.__init__ raises ValueError exactly when config['staging']
is truthy and the Juju backend is not legacy; in every non-raising case it
builds a mixins list of exactly four elements: SetUpMixin, then exactly one
of ImprovMixin/SandboxMixin/PythonMixin/GoMixin, then GuiMixin, then
BuiltinServerMixin when 'builtin-server' is truthy and HaproxyApacheMixin
otherwise. -/
theorem backend_init_error_and_shape (config : Config) (legacy : Bool) :
    ((∃ e, backendInit config legacy = Except.error e) ↔
      (config.staging = true ∧ legacy = false))
  ∧ ∀ ms, backendInit config legacy = Except.ok ms →
      ms.length = 4
    ∧ ∃ m2, ms = [Mixin.setUpMixin, m2, Mixin.guiMixin,
          if config.builtin_server then Mixin.builtinServerMixin
          else Mixin.haproxyApacheMixin]
        ∧ (m2 = Mixin.improvMixin ∨ m2 = Mixin.sandboxMixin ∨
           m2 = Mixin.pythonMixin ∨ m2 = Mixin.goMixin) := by
  obtain ⟨st, sb, bs⟩ := config
  cases st <;> cases sb <;> cases legacy <;> cases bs <;>
    simp [backendInit, mixinsList]

/-- Witness for C10 at a concrete configuration: a non-staging sandbox
config with the builtin server enabled yields the four-mixin list headed
by SetUpMixin, and a staging config on a non-legacy backend yields an
error. -/
theorem backend_init_error_and_shape_witness :
    (backendInit ⟨false, true, true⟩ true = Except.ok
      [Mixin.setUpMixin, Mixin.sandboxMixin, Mixin.guiMixin, Mixin.builtinServerMixin])
  ∧ ((∃ e, backendInit ⟨true, false, false⟩ false = Except.error e) ↔
      ((⟨true, false, false⟩ : Config).staging = true ∧ false = false)) := by
  constructor
  · rfl
  · exact (backend_init_error_and_shape ⟨true, false, false⟩ false).1

/-! ## Part 2: the proxying WebSocket handler and its authentication
interceptor (guiserver/handlers.py, guiserver/auth.py and
guiserver/clients.py, which are not among the provided sources; the
definitions below are modelled from the specification, cross-checked
against src/server/guiserver/tests/test_handlers.py). -/

/-- Modelled from the spec: the user record constructed by the pluggable
Auth Backend of guiserver/auth.py (missing from the provided sources),
carrying the is_authenticated flag queried by downstream authorization
logic. -/
structure User where
  is_authenticated : Bool
deriving DecidableEq

/-- Modelled from the spec: the per-connection Authentication State of the
interceptor in guiserver/auth.py (missing from the provided sources): one
of not-started, in-progress, authenticated; the in-progress state
remembers the identity of the pending login request for response
matching. -/
inductive AuthState
  | notStarted
  | inProgress (requestId : Nat)
  | authenticated
deriving DecidableEq

/-- Modelled from the spec: the in_progress() observer of the interceptor
in guiserver/auth.py (missing from the provided sources). -/
def in_progress : AuthState → Bool
  | .inProgress _ => true
  | _ => false

/-- Modelled from the spec: the pluggable protocol-version-specific Auth
Backend contract of guiserver/auth.py (missing from the provided sources):
recognize a login request, yielding the request identity remembered for
response matching, and recognize a login response, yielding the identity
it answers and the success/failure outcome. -/
structure AuthBackend (M : Type) where
  loginRequest : M → Option Nat
  loginResponse : M → Option (Nat × Bool)

/-- Modelled from the spec: the outgoing-frame transition of the
Authentication Interceptor (guiserver/auth.py, missing from the provided
sources): a recognized login request moves not-started to in-progress
unless the user is already authenticated; a login request while
in-progress or while authenticated is ignored. -/
def processRequest {M : Type} (b : AuthBackend M) (st : AuthState) (u : User) (m : M) :
    AuthState × User :=
  match b.loginRequest m with
  | none => (st, u)
  | some rid =>
    match st with
    | .notStarted => if u.is_authenticated then (st, u) else (.inProgress rid, u)
    | _ => (st, u)

/-- Modelled from the spec: the incoming-frame transition of the
Authentication Interceptor (guiserver/auth.py, missing from the provided
sources): a matching login response while in-progress either completes
the handshake (success: mark the user authenticated) or resets to
not-started (failure); any other incoming frame, or any response while
not in-progress, leaves the state untouched. -/
def processResponse {M : Type} (b : AuthBackend M) (st : AuthState) (u : User) (m : M) :
    AuthState × User :=
  match st with
  | .inProgress rid =>
    match b.loginResponse m with
    | some p =>
      if p.1 = rid then
        if p.2 then (.authenticated, { u with is_authenticated := true })
        else (.notStarted, u)
      else (st, u)
    | none => (st, u)
  | _ => (st, u)

/-- Modelled from the spec: a WebSocket text frame as classified by the
JSON decoding in guiserver/handlers.py (missing from the provided
sources): it either decodes to a JSON object carrying the message
payload, or is valid JSON that is not a dict, or is not valid JSON. -/
inductive Frame (M : Type)
  | obj (payload : M)
  | nonDict (raw : String)
  | invalidJson (raw : String)
deriving DecidableEq

/-- Modelled from the spec: the diagnostic logged for a frame that is not
valid JSON. -/
def notJsonLog (raw : String) : String := "message is not valid JSON: " ++ raw

/-- Modelled from the spec: the diagnostic logged for a valid JSON frame
that does not decode to a dict. -/
def notDictLog (raw : String) : String := "message is not a dict: " ++ raw

/-- Modelled from the spec: the error logged when the upstream connect
fails. -/
def connectErrorLog : String := "unable to connect to the upstream API"

/-- Modelled from the spec: the error logged when the upstream side closes
while the downstream is still open. -/
def remoteDisconnectLog : String := "API unexpectedly disconnected"

/-- Modelled from the spec: the Connection Pair lifecycle phase of the
Proxy Connection Handler (guiserver/handlers.py, missing from the provided
sources): connecting, open (spelled opened here) or closed. -/
inductive Phase
  | connecting
  | opened
  | closed
deriving DecidableEq

/-- Modelled from the spec: the observable state of one Proxy Connection
Handler (guiserver/handlers.py, missing from the provided sources): the
lifecycle phase, the Pending Queue, the interceptor state and user
record, the traces of payloads forwarded upstream and downstream, the
log, the number of close operations issued on each leg, and the
connected / juju_connected flags asserted by the test suite. -/
structure Handler (M : Type) where
  phase : Phase
  queue : List (Frame M)
  auth : AuthState
  user : User
  upstreamSent : List M
  downstreamSent : List M
  logs : List String
  upstreamCloseCalls : Nat
  downstreamCloseCalls : Nat
  connected : Bool
  juju_connected : Bool
deriving DecidableEq

/-- Modelled from the spec: the handler state right after the downstream
accept: connecting phase, empty Pending Queue, not-started interceptor
state, unauthenticated user. -/
def initialHandler (M : Type) : Handler M :=
  { phase := .connecting
    queue := []
    auth := .notStarted
    user := ⟨false⟩
    upstreamSent := []
    downstreamSent := []
    logs := []
    upstreamCloseCalls := 0
    downstreamCloseCalls := 0
    connected := true
    juju_connected := false }

/-- Modelled from the spec: the events driving one Connection Pair: a
downstream frame arrives (on_message), an upstream frame arrives
(on_juju_message), the asynchronous upstream connect resolves, or one of
the two legs closes. -/
inductive Event (M : Type)
  | onMessage (f : Frame M)
  | onJujuMessage (f : Frame M)
  | connectDone (success : Bool)
  | clientClose
  | jujuClose
deriving DecidableEq

/-- Modelled from the spec: processing of one downstream frame while the
pair is open: a frame that decodes to a JSON object is fed to the
interceptor (outgoing direction) and forwarded upstream; any other frame
is logged and dropped, never forwarded and never interpreted. -/
def handleOutgoing {M : Type} (b : AuthBackend M) (h : Handler M) (f : Frame M) : Handler M :=
  match f with
  | .obj m =>
    let p := processRequest b h.auth h.user m
    { h with auth := p.1, user := p.2, upstreamSent := h.upstreamSent ++ [m] }
  | .nonDict raw => { h with logs := h.logs ++ [notDictLog raw] }
  | .invalidJson raw => { h with logs := h.logs ++ [notJsonLog raw] }

/-- Modelled from the spec: processing of one upstream frame while the
pair is open: a frame that decodes to a JSON object is fed to the
interceptor (incoming direction) and forwarded downstream; any other
frame is logged and dropped, never forwarded and never interpreted. -/
def handleIncoming {M : Type} (b : AuthBackend M) (h : Handler M) (f : Frame M) : Handler M :=
  match f with
  | .obj m =>
    let p := processResponse b h.auth h.user m
    { h with auth := p.1, user := p.2, downstreamSent := h.downstreamSent ++ [m] }
  | .nonDict raw => { h with logs := h.logs ++ [notDictLog raw] }
  | .invalidJson raw => { h with logs := h.logs ++ [notJsonLog raw] }

/-- Modelled from the spec: the transition function of the Proxy
Connection Handler (guiserver/handlers.py, missing from the provided
sources).  During connecting, downstream frames are appended to the
Pending Queue; a successful connect flushes the queue upstream in order
and opens the pair; a failed connect logs an error and closes the
downstream leg.  While open, frames are forwarded through the interceptor
in both directions.  Closing either leg closes the other leg; a second
close, or any event after the pair is closed, has no effect; an
upstream-initiated close is logged as an error, a downstream-initiated
close is not. -/
def step {M : Type} (b : AuthBackend M) (h : Handler M) : Event M → Handler M
  | .onMessage f =>
    match h.phase with
    | .connecting => { h with queue := h.queue ++ [f] }
    | .opened => handleOutgoing b h f
    | .closed => h
  | .onJujuMessage f =>
    match h.phase with
    | .opened => handleIncoming b h f
    | _ => h
  | .connectDone success =>
    match h.phase with
    | .connecting =>
      if success then
        (h.queue).foldl (handleOutgoing b)
          { h with phase := .opened, queue := [], juju_connected := true }
      else
        { h with
          phase := .closed
          connected := false
          juju_connected := false
          logs := h.logs ++ [connectErrorLog]
          downstreamCloseCalls := h.downstreamCloseCalls + 1 }
    | _ => h
  | .clientClose =>
    match h.phase with
    | .closed => h
    | _ =>
      { h with
        phase := .closed
        connected := false
        juju_connected := false
        upstreamCloseCalls := h.upstreamCloseCalls + 1 }
  | .jujuClose =>
    match h.phase with
    | .closed => h
    | _ =>
      { h with
        phase := .closed
        connected := false
        juju_connected := false
        downstreamCloseCalls := h.downstreamCloseCalls + 1
        logs := h.logs ++ [remoteDisconnectLog] }

/-- Modelled from the spec: on_message of the handler, the entry point for
one downstream frame. -/
def on_message {M : Type} (b : AuthBackend M) (h : Handler M) (f : Frame M) : Handler M :=
  step b h (Event.onMessage f)

/-- Modelled from the spec: on_juju_message of the handler, the entry
point for one upstream frame. -/
def on_juju_message {M : Type} (b : AuthBackend M) (h : Handler M) (f : Frame M) : Handler M :=
  step b h (Event.onJujuMessage f)

/-- Run a sequence of events through the handler transition function. -/
def runEvents {M : Type} (b : AuthBackend M) (h : Handler M) (es : List (Event M)) : Handler M :=
  es.foldl (step b) h

/-- Payloads of the frames of a list that decode to a JSON object, in
order. -/
def objPayloads {M : Type} : List (Frame M) → List M
  | [] => []
  | Frame.obj m :: rest => m :: objPayloads rest
  | Frame.nonDict _ :: rest => objPayloads rest
  | Frame.invalidJson _ :: rest => objPayloads rest

/-- Modelled from the spec: assembly of the upstream WebSocket handshake
headers by the Outbound Connection Manager (guiserver/handlers.py and
guiserver/clients.py, missing from the provided sources): the downstream
request headers are passed through, and when they do not already supply
an Origin header a default equal to the upstream API URL is added. -/
def juju_connection_headers (requestHeaders : List (String × String)) (apiurl : String) :
    List (String × String) :=
  if (requestHeaders.lookup "Origin").isSome then requestHeaders
  else requestHeaders ++ [("Origin", apiurl)]

/-! ### Helper lemmas for Part 2 -/

lemma handleOutgoing_phase {M : Type} (b : AuthBackend M) (h : Handler M) (f : Frame M) :
    (handleOutgoing b h f).phase = h.phase := by
  cases f <;> rfl

lemma handleOutgoing_queue {M : Type} (b : AuthBackend M) (h : Handler M) (f : Frame M) :
    (handleOutgoing b h f).queue = h.queue := by
  cases f <;> rfl

lemma handleOutgoing_downstreamSent {M : Type} (b : AuthBackend M) (h : Handler M)
    (f : Frame M) :
    (handleOutgoing b h f).downstreamSent = h.downstreamSent := by
  cases f <;> rfl

lemma handleOutgoing_upstreamSent {M : Type} (b : AuthBackend M) (h : Handler M)
    (f : Frame M) :
    (handleOutgoing b h f).upstreamSent = h.upstreamSent ++ objPayloads [f] := by
  cases f <;> simp [handleOutgoing, objPayloads]

lemma foldl_handleOutgoing_phase {M : Type} (b : AuthBackend M) (fs : List (Frame M))
    (h : Handler M) :
    (fs.foldl (handleOutgoing b) h).phase = h.phase := by
  induction fs generalizing h with
  | nil => rfl
  | cons f rest ih => rw [List.foldl_cons, ih, handleOutgoing_phase]

lemma foldl_handleOutgoing_queue {M : Type} (b : AuthBackend M) (fs : List (Frame M))
    (h : Handler M) :
    (fs.foldl (handleOutgoing b) h).queue = h.queue := by
  induction fs generalizing h with
  | nil => rfl
  | cons f rest ih => rw [List.foldl_cons, ih, handleOutgoing_queue]

lemma foldl_handleOutgoing_upstreamSent {M : Type} (b : AuthBackend M) (fs : List (Frame M))
    (h : Handler M) :
    (fs.foldl (handleOutgoing b) h).upstreamSent = h.upstreamSent ++ objPayloads fs := by
  induction fs generalizing h with
  | nil => simp [objPayloads]
  | cons f rest ih =>
    rw [List.foldl_cons, ih, handleOutgoing_upstreamSent]
    cases f <;> simp [objPayloads]

lemma step_onMessage_connecting {M : Type} (b : AuthBackend M) (h : Handler M) (f : Frame M)
    (hph : h.phase = Phase.connecting) :
    step b h (Event.onMessage f) = { h with queue := h.queue ++ [f] } := by
  simp [step, hph]

lemma step_onMessage_opened {M : Type} (b : AuthBackend M) (h : Handler M) (f : Frame M)
    (hph : h.phase = Phase.opened) :
    step b h (Event.onMessage f) = handleOutgoing b h f := by
  simp [step, hph]

lemma step_onJujuMessage_opened {M : Type} (b : AuthBackend M) (h : Handler M) (f : Frame M)
    (hph : h.phase = Phase.opened) :
    step b h (Event.onJujuMessage f) = handleIncoming b h f := by
  simp [step, hph]

lemma step_connectDone_true {M : Type} (b : AuthBackend M) (h : Handler M)
    (hph : h.phase = Phase.connecting) :
    step b h (Event.connectDone true) =
      (h.queue).foldl (handleOutgoing b)
        { h with phase := .opened, queue := [], juju_connected := true } := by
  simp [step, hph]

lemma step_closed {M : Type} (b : AuthBackend M) (h : Handler M) (e : Event M)
    (hph : h.phase = Phase.closed) :
    step b h e = h := by
  cases e <;> simp [step, hph]

lemma runEvents_onMessage_connecting {M : Type} (b : AuthBackend M) (h : Handler M)
    (fs : List (Frame M)) (hph : h.phase = Phase.connecting) :
    runEvents b h (fs.map Event.onMessage) = { h with queue := h.queue ++ fs } := by
  induction fs generalizing h with
  | nil => simp [runEvents]
  | cons f rest ih =>
    rw [List.map_cons]
    show runEvents b (step b h (Event.onMessage f)) (rest.map Event.onMessage) = _
    rw [step_onMessage_connecting b h f hph,
      ih { h with queue := h.queue ++ [f] } hph]
    simp

lemma runEvents_onMessage_opened {M : Type} (b : AuthBackend M) (h : Handler M)
    (fs : List (Frame M)) (hph : h.phase = Phase.opened) :
    runEvents b h (fs.map Event.onMessage) = fs.foldl (handleOutgoing b) h := by
  induction fs generalizing h with
  | nil => rfl
  | cons f rest ih =>
    rw [List.map_cons, List.foldl_cons]
    show runEvents b (step b h (Event.onMessage f)) (rest.map Event.onMessage) = _
    rw [step_onMessage_opened b h f hph,
      ih _ (by rw [handleOutgoing_phase, hph])]

lemma processRequest_authenticated {M : Type} (b : AuthBackend M) (u : User) (m : M) :
    processRequest b AuthState.authenticated u m = (AuthState.authenticated, u) := by
  unfold processRequest
  cases b.loginRequest m <;> rfl

lemma handleOutgoing_authenticated {M : Type} (b : AuthBackend M) (h : Handler M)
    (f : Frame M) (hA : h.auth = AuthState.authenticated) :
    (handleOutgoing b h f).auth = AuthState.authenticated
  ∧ (handleOutgoing b h f).user = h.user := by
  cases f with
  | obj m => simp [handleOutgoing, hA, processRequest_authenticated]
  | nonDict raw => exact ⟨hA, rfl⟩
  | invalidJson raw => exact ⟨hA, rfl⟩

lemma foldl_handleOutgoing_authenticated {M : Type} (b : AuthBackend M)
    (fs : List (Frame M)) (h : Handler M) (hA : h.auth = AuthState.authenticated) :
    (fs.foldl (handleOutgoing b) h).auth = AuthState.authenticated
  ∧ (fs.foldl (handleOutgoing b) h).user = h.user := by
  induction fs generalizing h with
  | nil => exact ⟨hA, rfl⟩
  | cons f rest ih =>
    rw [List.foldl_cons]
    obtain ⟨h1, h2⟩ := handleOutgoing_authenticated b h f hA
    obtain ⟨h3, h4⟩ := ih (handleOutgoing b h f) h1
    exact ⟨h3, h4.trans h2⟩

lemma step_authenticated {M : Type} (b : AuthBackend M) (h : Handler M) (e : Event M)
    (hA : h.auth = AuthState.authenticated) (hU : h.user.is_authenticated = true) :
    (step b h e).auth = AuthState.authenticated
  ∧ (step b h e).user.is_authenticated = true := by
  cases e with
  | onMessage f =>
    cases hp : h.phase with
    | connecting => simp [step, hp, hA, hU]
    | opened =>
      rw [step_onMessage_opened b h f hp]
      obtain ⟨h1, h2⟩ := handleOutgoing_authenticated b h f hA
      rw [h1, h2]
      exact ⟨rfl, hU⟩
    | closed => simp [step, hp, hA, hU]
  | onJujuMessage f =>
    cases hp : h.phase with
    | opened =>
      rw [step_onJujuMessage_opened b h f hp]
      cases f with
      | obj m => simp [handleIncoming, hA, processResponse, hU]
      | nonDict raw => exact ⟨hA, hU⟩
      | invalidJson raw => exact ⟨hA, hU⟩
    | connecting => simp [step, hp, hA, hU]
    | closed => simp [step, hp, hA, hU]
  | connectDone success =>
    cases hp : h.phase with
    | connecting =>
      cases success with
      | true =>
        rw [step_connectDone_true b h hp]
        obtain ⟨h1, h2⟩ := foldl_handleOutgoing_authenticated b h.queue
          { h with phase := .opened, queue := [], juju_connected := true } hA
        rw [h1, h2]
        exact ⟨rfl, hU⟩
      | false => simp [step, hp, hA, hU]
    | opened => simp [step, hp, hA, hU]
    | closed => simp [step, hp, hA, hU]
  | clientClose => cases hp : h.phase <;> simp [step, hp, hA, hU]
  | jujuClose => cases hp : h.phase <;> simp [step, hp, hA, hU]

lemma runEvents_authenticated {M : Type} (b : AuthBackend M) (h : Handler M)
    (es : List (Event M)) (hA : h.auth = AuthState.authenticated)
    (hU : h.user.is_authenticated = true) :
    (runEvents b h es).auth = AuthState.authenticated
  ∧ (runEvents b h es).user.is_authenticated = true := by
  induction es generalizing h with
  | nil => exact ⟨hA, hU⟩
  | cons e rest ih =>
    obtain ⟨h1, h2⟩ := step_authenticated b h e hA hU
    exact ih (step b h e) h1 h2

lemma step_connectDone_false {M : Type} (b : AuthBackend M) (h : Handler M)
    (hph : h.phase = Phase.connecting) :
    step b h (Event.connectDone false) =
      { h with
        phase := .closed
        connected := false
        juju_connected := false
        logs := h.logs ++ [connectErrorLog]
        downstreamCloseCalls := h.downstreamCloseCalls + 1 } := by
  simp [step, hph]

lemma step_clientClose_not_closed {M : Type} (b : AuthBackend M) (h : Handler M)
    (hph : h.phase ≠ Phase.closed) :
    step b h Event.clientClose =
      { h with
        phase := .closed
        connected := false
        juju_connected := false
        upstreamCloseCalls := h.upstreamCloseCalls + 1 } := by
  cases hp : h.phase with
  | closed => exact absurd hp hph
  | connecting => simp [step, hp]
  | opened => simp [step, hp]

lemma step_jujuClose_not_closed {M : Type} (b : AuthBackend M) (h : Handler M)
    (hph : h.phase ≠ Phase.closed) :
    step b h Event.jujuClose =
      { h with
        phase := .closed
        connected := false
        juju_connected := false
        downstreamCloseCalls := h.downstreamCloseCalls + 1
        logs := h.logs ++ [remoteDisconnectLog] } := by
  cases hp : h.phase with
  | closed => exact absurd hp hph
  | connecting => simp [step, hp]
  | opened => simp [step, hp]

lemma lookup_append_right {β : Type} (l1 l2 : List (String × β)) (k : String)
    (hl : l1.lookup k = none) : (l1 ++ l2).lookup k = l2.lookup k := by
  induction l1 with
  | nil => rfl
  | cons p rest ih =>
    obtain ⟨a, v⟩ := p
    rw [List.cons_append]
    rw [List.lookup] at hl ⊢
    cases hak : (k == a) with
    | true => rw [hak] at hl; exact Option.noConfusion hl
    | false => rw [hak] at hl; exact ih hl

/-! ### Claim theorems for Part 2 -/

/-- C1: for every Connection Pair, every downstream message that arrives
before the upstream connect completes is held in the Pending Queue and not
forwarded during the connecting phase; immediately upon successful
connect, the queued messages are delivered upstream exactly once, in
arrival order, before any message that arrives after the pair is open is
forwarded. -/
theorem queued_messages_flushed_in_order {M : Type} (b : AuthBackend M) (h : Handler M)
    (hph : h.phase = Phase.connecting) (qs later : List (Frame M)) :
    (runEvents b h (qs.map Event.onMessage)).upstreamSent = h.upstreamSent
  ∧ (runEvents b h (qs.map Event.onMessage)).queue = h.queue ++ qs
  ∧ (step b (runEvents b h (qs.map Event.onMessage)) (Event.connectDone true)).phase
      = Phase.opened
  ∧ (step b (runEvents b h (qs.map Event.onMessage)) (Event.connectDone true)).queue = []
  ∧ (step b (runEvents b h (qs.map Event.onMessage)) (Event.connectDone true)).upstreamSent
      = h.upstreamSent ++ objPayloads (h.queue ++ qs)
  ∧ (runEvents b (step b (runEvents b h (qs.map Event.onMessage)) (Event.connectDone true))
        (later.map Event.onMessage)).upstreamSent
      = h.upstreamSent ++ objPayloads (h.queue ++ qs) ++ objPayloads later := by
  rw [runEvents_onMessage_connecting b h qs hph]
  rw [step_connectDone_true b { h with queue := h.queue ++ qs } hph]
  refine ⟨rfl, rfl, ?_, ?_, ?_, ?_⟩
  · rw [foldl_handleOutgoing_phase]
  · rw [foldl_handleOutgoing_queue]
  · rw [foldl_handleOutgoing_upstreamSent]
  · rw [runEvents_onMessage_opened _ _ _ (by rw [foldl_handleOutgoing_phase]),
      foldl_handleOutgoing_upstreamSent, foldl_handleOutgoing_upstreamSent]

/-- C2: starting from the initial authentication state, in_progress() is
false and is_authenticated is false before any login request; after an
outgoing frame recognized as a login request, in_progress() is true and
is_authenticated is still false; after a subsequent incoming matching
login response indicating success, is_authenticated is true and
in_progress() is false; after a subsequent incoming matching login
response indicating failure, is_authenticated is false and in_progress()
is false. -/
theorem authentication_sequence {M : Type} (b : AuthBackend M) (h : Handler M)
    (req respS respF : M) (rid : Nat)
    (hph : h.phase = Phase.opened) (hau : h.auth = AuthState.notStarted)
    (hus : h.user.is_authenticated = false)
    (hreq : b.loginRequest req = some rid)
    (hrs : b.loginResponse respS = some (rid, true))
    (hrf : b.loginResponse respF = some (rid, false)) :
    in_progress h.auth = false
  ∧ h.user.is_authenticated = false
  ∧ in_progress (on_message b h (Frame.obj req)).auth = true
  ∧ (on_message b h (Frame.obj req)).user.is_authenticated = false
  ∧ (on_juju_message b (on_message b h (Frame.obj req))
      (Frame.obj respS)).user.is_authenticated = true
  ∧ in_progress (on_juju_message b (on_message b h (Frame.obj req))
      (Frame.obj respS)).auth = false
  ∧ (on_juju_message b (on_message b h (Frame.obj req))
      (Frame.obj respF)).user.is_authenticated = false
  ∧ in_progress (on_juju_message b (on_message b h (Frame.obj req))
      (Frame.obj respF)).auth = false := by
  have h1eq : on_message b h (Frame.obj req) =
      { h with auth := AuthState.inProgress rid, upstreamSent := h.upstreamSent ++ [req] } := by
    rw [on_message, step_onMessage_opened b h _ hph]
    simp [handleOutgoing, processRequest, hreq, hau, hus]
  have h1ph : (on_message b h (Frame.obj req)).phase = Phase.opened := by
    rw [h1eq]; exact hph
  refine ⟨by simp [in_progress, hau], hus, ?_, ?_, ?_, ?_, ?_, ?_⟩
  · rw [h1eq]; rfl
  · rw [h1eq]; exact hus
  · rw [on_juju_message, step_onJujuMessage_opened b _ _ h1ph, h1eq]
    simp [handleIncoming, processResponse, hrs]
  · rw [on_juju_message, step_onJujuMessage_opened b _ _ h1ph, h1eq]
    simp [handleIncoming, processResponse, hrs, in_progress]
  · rw [on_juju_message, step_onJujuMessage_opened b _ _ h1ph, h1eq]
    simp [handleIncoming, processResponse, hrf, hus]
  · rw [on_juju_message, step_onJujuMessage_opened b _ _ h1ph, h1eq]
    simp [handleIncoming, processResponse, hrf, in_progress]

/-- C3: once a Connection Pair is authenticated it stays authenticated for
every subsequent event driven by the interceptor; in particular any later
outgoing login request is ignored, leaving is_authenticated true and
in_progress() false. -/
theorem authenticated_is_monotonic {M : Type} (b : AuthBackend M) (h : Handler M)
    (hA : h.auth = AuthState.authenticated) (hU : h.user.is_authenticated = true)
    (es : List (Event M)) :
    (runEvents b h es).user.is_authenticated = true
  ∧ in_progress (runEvents b h es).auth = false
  ∧ ∀ m : M, (on_message b (runEvents b h es) (Frame.obj m)).user.is_authenticated = true
      ∧ in_progress (on_message b (runEvents b h es) (Frame.obj m)).auth = false := by
  obtain ⟨h1, h2⟩ := runEvents_authenticated b h es hA hU
  refine ⟨h2, by rw [h1]; rfl, ?_⟩
  intro m
  obtain ⟨h3, h4⟩ := step_authenticated b (runEvents b h es)
    (Event.onMessage (Frame.obj m)) h1 h2
  refine ⟨h4, ?_⟩
  rw [show (on_message b (runEvents b h es) (Frame.obj m)).auth
    = AuthState.authenticated from h3]
  rfl

/-- C4: when the interceptor is not in the in-progress state, an incoming
frame recognized as a login response leaves both in_progress() and
is_authenticated unchanged, raises no error (the log is untouched), and
the frame is still forwarded downstream normally. -/
theorem login_response_ignored_when_not_in_progress {M : Type} (b : AuthBackend M)
    (h : Handler M) (r : M) (rid : Nat) (outcome : Bool)
    (hph : h.phase = Phase.opened) (hnp : in_progress h.auth = false)
    (hr : b.loginResponse r = some (rid, outcome)) :
    (on_juju_message b h (Frame.obj r)).auth = h.auth
  ∧ (on_juju_message b h (Frame.obj r)).user = h.user
  ∧ (on_juju_message b h (Frame.obj r)).downstreamSent = h.downstreamSent ++ [r]
  ∧ (on_juju_message b h (Frame.obj r)).logs = h.logs := by
  have key : processResponse b h.auth h.user r = (h.auth, h.user) := by
    cases ha : h.auth with
    | notStarted => rfl
    | inProgress rid2 => rw [ha] at hnp; simp [in_progress] at hnp
    | authenticated => rfl
  rw [on_juju_message, step_onJujuMessage_opened b h _ hph]
  simp [handleIncoming, key]

/-- C5: the upstream WebSocket handshake carries an Origin header: when
the downstream request supplied one it is forwarded verbatim, otherwise
the Origin header equals the upstream API URL itself. -/
theorem origin_header_forwarded_or_default (hs : List (String × String)) (apiurl : String) :
    (∀ o, hs.lookup "Origin" = some o →
      (juju_connection_headers hs apiurl).lookup "Origin" = some o)
  ∧ (hs.lookup "Origin" = none →
      (juju_connection_headers hs apiurl).lookup "Origin" = some apiurl) := by
  constructor
  · intro o ho
    rw [juju_connection_headers, if_pos (by rw [ho]; rfl)]
    exact ho
  · intro ho
    rw [juju_connection_headers, if_neg (by rw [ho]; simp)]
    rw [lookup_append_right _ _ _ ho]
    simp [List.lookup]

/-- C6: when the upstream connect fails, the failure is logged as an error
with the text "unable to connect to the upstream API", the downstream
connection is closed, the pair ends with both connected and
juju_connected false, no frames are ever forwarded (neither the messages
queued while connecting nor any later event has any effect), and no retry
is attempted by the core. -/
theorem connect_failure_closes_pair {M : Type} (b : AuthBackend M) (h : Handler M)
    (hph : h.phase = Phase.connecting) (qs : List (Frame M)) :
    (step b (runEvents b h (qs.map Event.onMessage)) (Event.connectDone false)).phase
      = Phase.closed
  ∧ (step b (runEvents b h (qs.map Event.onMessage)) (Event.connectDone false)).connected
      = false
  ∧ (step b (runEvents b h (qs.map Event.onMessage)) (Event.connectDone false)).juju_connected
      = false
  ∧ (step b (runEvents b h (qs.map Event.onMessage))
        (Event.connectDone false)).downstreamCloseCalls = h.downstreamCloseCalls + 1
  ∧ (step b (runEvents b h (qs.map Event.onMessage)) (Event.connectDone false)).logs
      = h.logs ++ [connectErrorLog]
  ∧ (step b (runEvents b h (qs.map Event.onMessage)) (Event.connectDone false)).upstreamSent
      = h.upstreamSent
  ∧ (step b (runEvents b h (qs.map Event.onMessage)) (Event.connectDone false)).downstreamSent
      = h.downstreamSent
  ∧ ∀ e, step b (step b (runEvents b h (qs.map Event.onMessage)) (Event.connectDone false)) e
      = step b (runEvents b h (qs.map Event.onMessage)) (Event.connectDone false) := by
  rw [runEvents_onMessage_connecting b h qs hph]
  rw [step_connectDone_false b { h with queue := h.queue ++ qs } hph]
  refine ⟨rfl, rfl, rfl, rfl, rfl, rfl, rfl, ?_⟩
  intro e
  exact step_closed b _ e rfl

/-- C7: a frame whose payload is not valid JSON, or decodes to a
non-object, is logged as a diagnostic and dropped in either direction: it
is never forwarded, never interpreted by the interceptor (the handler
state changes only by the appended log line), the connection stays open,
and subsequent valid frames are still forwarded. -/
theorem invalid_frames_dropped_not_forwarded {M : Type} (b : AuthBackend M) (h : Handler M)
    (raw1 raw2 : String) (m : M) (hph : h.phase = Phase.opened) :
    on_message b h (Frame.invalidJson raw1) = { h with logs := h.logs ++ [notJsonLog raw1] }
  ∧ on_message b h (Frame.nonDict raw2) = { h with logs := h.logs ++ [notDictLog raw2] }
  ∧ on_juju_message b h (Frame.invalidJson raw1)
      = { h with logs := h.logs ++ [notJsonLog raw1] }
  ∧ on_juju_message b h (Frame.nonDict raw2) = { h with logs := h.logs ++ [notDictLog raw2] }
  ∧ (on_message b (on_message b h (Frame.invalidJson raw1)) (Frame.obj m)).upstreamSent
      = h.upstreamSent ++ [m]
  ∧ (on_juju_message b (on_juju_message b h (Frame.nonDict raw2)) (Frame.obj m)).downstreamSent
      = h.downstreamSent ++ [m]
  ∧ (on_message b (on_message b h (Frame.invalidJson raw1)) (Frame.obj m)).phase = Phase.opened
  := by
  have e1 : on_message b h (Frame.invalidJson raw1)
      = { h with logs := h.logs ++ [notJsonLog raw1] } := by
    rw [on_message, step_onMessage_opened b h _ hph]; rfl
  have e2 : on_message b h (Frame.nonDict raw2)
      = { h with logs := h.logs ++ [notDictLog raw2] } := by
    rw [on_message, step_onMessage_opened b h _ hph]; rfl
  have e3 : on_juju_message b h (Frame.invalidJson raw1)
      = { h with logs := h.logs ++ [notJsonLog raw1] } := by
    rw [on_juju_message, step_onJujuMessage_opened b h _ hph]; rfl
  have e4 : on_juju_message b h (Frame.nonDict raw2)
      = { h with logs := h.logs ++ [notDictLog raw2] } := by
    rw [on_juju_message, step_onJujuMessage_opened b h _ hph]; rfl
  refine ⟨e1, e2, e3, e4, ?_, ?_, ?_⟩
  · rw [e1, on_message,
      step_onMessage_opened b { h with logs := h.logs ++ [notJsonLog raw1] } _ hph]
    rw [handleOutgoing_upstreamSent]
    rfl
  · rw [e4, on_juju_message,
      step_onJujuMessage_opened b { h with logs := h.logs ++ [notDictLog raw2] } _ hph]
    rfl
  · rw [e1, on_message,
      step_onMessage_opened b { h with logs := h.logs ++ [notJsonLog raw1] } _ hph,
      handleOutgoing_phase]
    exact hph

/-- C8: closing either leg closes the other leg exactly once, with no
further frame deliveries afterward; an upstream close while the
downstream is still open is logged as an error "API unexpectedly
disconnected", while a downstream-initiated close produces no error
log. -/
theorem teardown_symmetric_exactly_once {M : Type} (b : AuthBackend M) (h : Handler M)
    (hph : h.phase ≠ Phase.closed) :
    (step b h Event.clientClose).phase = Phase.closed
  ∧ (step b h Event.clientClose).upstreamCloseCalls = h.upstreamCloseCalls + 1
  ∧ (step b h Event.clientClose).logs = h.logs
  ∧ (∀ e, step b (step b h Event.clientClose) e = step b h Event.clientClose)
  ∧ (step b h Event.jujuClose).phase = Phase.closed
  ∧ (step b h Event.jujuClose).downstreamCloseCalls = h.downstreamCloseCalls + 1
  ∧ (step b h Event.jujuClose).logs = h.logs ++ [remoteDisconnectLog]
  ∧ (∀ e, step b (step b h Event.jujuClose) e = step b h Event.jujuClose) := by
  rw [step_clientClose_not_closed b h hph, step_jujuClose_not_closed b h hph]
  refine ⟨rfl, rfl, rfl, ?_, rfl, rfl, rfl, ?_⟩
  · intro e; exact step_closed b _ e rfl
  · intro e; exact step_closed b _ e rfl

/-! ### Concrete instances and witnesses -/

/-- A concrete Auth Backend over natural-number messages used to
instantiate the claim theorems: message 0 is the login request with
identity 42, message 1 the successful and message 2 the failed login
response answering it. -/
def natBackend : AuthBackend Nat where
  loginRequest := fun m => if m = 0 then some 42 else none
  loginResponse := fun m =>
    if m = 1 then some (42, true) else if m = 2 then some (42, false) else none

/-- The handler state right after a successful upstream connect with an
empty Pending Queue. -/
def openHandler : Handler Nat :=
  step natBackend (initialHandler Nat) (Event.connectDone true)

/-- The handler state after a complete successful login exchange. -/
def authedHandler : Handler Nat :=
  on_juju_message natBackend (on_message natBackend openHandler (Frame.obj 0)) (Frame.obj 1)

/-- Witness for C1: a fresh connecting handler with one queued message
flushes exactly that message upstream on connect. -/
theorem queued_messages_flushed_in_order_witness :
    (initialHandler Nat).phase = Phase.connecting
  ∧ (step natBackend (runEvents natBackend (initialHandler Nat)
        ([Frame.obj 5].map Event.onMessage)) (Event.connectDone true)).upstreamSent
      = (initialHandler Nat).upstreamSent
        ++ objPayloads ((initialHandler Nat).queue ++ [Frame.obj 5]) :=
  ⟨rfl, (queued_messages_flushed_in_order natBackend (initialHandler Nat) rfl
    [Frame.obj 5] [Frame.obj 7]).2.2.2.2.1⟩

/-- Witness for C2: the authentication sequence at the concrete backend,
with the login request 0 and the successful response 1. -/
theorem authentication_sequence_witness :
    openHandler.phase = Phase.opened
  ∧ openHandler.auth = AuthState.notStarted
  ∧ openHandler.user.is_authenticated = false
  ∧ natBackend.loginRequest 0 = some 42
  ∧ natBackend.loginResponse 1 = some (42, true)
  ∧ natBackend.loginResponse 2 = some (42, false)
  ∧ in_progress (on_message natBackend openHandler (Frame.obj 0)).auth = true
  ∧ (on_juju_message natBackend (on_message natBackend openHandler (Frame.obj 0))
      (Frame.obj 1)).user.is_authenticated = true :=
  ⟨rfl, rfl, rfl, rfl, rfl, rfl,
    (authentication_sequence natBackend openHandler 0 1 2 42
      rfl rfl rfl rfl rfl rfl).2.2.1,
    (authentication_sequence natBackend openHandler 0 1 2 42
      rfl rfl rfl rfl rfl rfl).2.2.2.2.1⟩

/-- Witness for C3: after the successful login exchange the handler stays
authenticated across a further login request event. -/
theorem authenticated_is_monotonic_witness :
    authedHandler.auth = AuthState.authenticated
  ∧ authedHandler.user.is_authenticated = true
  ∧ (runEvents natBackend authedHandler
      [Event.onMessage (Frame.obj 0)]).user.is_authenticated = true :=
  ⟨rfl, rfl, (authenticated_is_monotonic natBackend authedHandler rfl rfl
    [Event.onMessage (Frame.obj 0)]).1⟩

/-- Witness for C4: a successful login response arriving while the fresh
open handler is not in progress changes neither the interceptor state nor
the user, and is still forwarded. -/
theorem login_response_ignored_when_not_in_progress_witness :
    openHandler.phase = Phase.opened
  ∧ in_progress openHandler.auth = false
  ∧ natBackend.loginResponse 1 = some (42, true)
  ∧ (on_juju_message natBackend openHandler (Frame.obj 1)).auth = openHandler.auth
  ∧ (on_juju_message natBackend openHandler (Frame.obj 1)).user = openHandler.user :=
  ⟨rfl, rfl, rfl,
    (login_response_ignored_when_not_in_progress natBackend openHandler 1 42 true
      rfl rfl rfl).1,
    (login_response_ignored_when_not_in_progress natBackend openHandler 1 42 true
      rfl rfl rfl).2.1⟩

/-- Witness for C5: a supplied Origin header is forwarded verbatim, and a
missing one defaults to the upstream API URL. -/
theorem origin_header_forwarded_or_default_witness :
    (juju_connection_headers [("Origin", "https://example.com")]
      "wss://api.example.com").lookup "Origin" = some "https://example.com"
  ∧ (juju_connection_headers [] "wss://api.example.com").lookup "Origin"
      = some "wss://api.example.com" :=
  ⟨(origin_header_forwarded_or_default [("Origin", "https://example.com")]
      "wss://api.example.com").1 "https://example.com" rfl,
   (origin_header_forwarded_or_default [] "wss://api.example.com").2 rfl⟩

/-- Witness for C6: a failed connect on the fresh handler with one queued
message closes the pair and logs the connect error. -/
theorem connect_failure_closes_pair_witness :
    (initialHandler Nat).phase = Phase.connecting
  ∧ (step natBackend (runEvents natBackend (initialHandler Nat)
        ([Frame.obj 3].map Event.onMessage)) (Event.connectDone false)).phase = Phase.closed
  ∧ (step natBackend (runEvents natBackend (initialHandler Nat)
        ([Frame.obj 3].map Event.onMessage)) (Event.connectDone false)).logs
      = (initialHandler Nat).logs ++ [connectErrorLog] :=
  ⟨rfl,
   (connect_failure_closes_pair natBackend (initialHandler Nat) rfl [Frame.obj 3]).1,
   (connect_failure_closes_pair natBackend (initialHandler Nat) rfl
     [Frame.obj 3]).2.2.2.2.1⟩

/-- Witness for C7: the frames "not-json" and the quoted non-dict are
dropped with a diagnostic on the open handler and a valid frame is still
forwarded afterwards. -/
theorem invalid_frames_dropped_not_forwarded_witness :
    openHandler.phase = Phase.opened
  ∧ on_message natBackend openHandler (Frame.invalidJson "not-json")
      = { openHandler with logs := openHandler.logs ++ [notJsonLog "not-json"] }
  ∧ (on_message natBackend (on_message natBackend openHandler
        (Frame.invalidJson "not-json")) (Frame.obj 9)).upstreamSent
      = openHandler.upstreamSent ++ [9] :=
  ⟨rfl,
   (invalid_frames_dropped_not_forwarded natBackend openHandler "not-json"
     "\"not-a-dict\"" 9 rfl).1,
   (invalid_frames_dropped_not_forwarded natBackend openHandler "not-json"
     "\"not-a-dict\"" 9 rfl).2.2.2.2.1⟩

/-- Witness for C8: closing the downstream leg of the open handler closes
the upstream leg once without an error log, and an upstream close is
logged as the unexpected-disconnect error. -/
theorem teardown_symmetric_exactly_once_witness :
    openHandler.phase ≠ Phase.closed
  ∧ (step natBackend openHandler Event.clientClose).upstreamCloseCalls
      = openHandler.upstreamCloseCalls + 1
  ∧ (step natBackend openHandler Event.clientClose).logs = openHandler.logs
  ∧ (step natBackend openHandler Event.jujuClose).logs
      = openHandler.logs ++ [remoteDisconnectLog] :=
  ⟨by decide,
   (teardown_symmetric_exactly_once natBackend openHandler (by decide)).2.1,
   (teardown_symmetric_exactly_once natBackend openHandler (by decide)).2.2.1,
   (teardown_symmetric_exactly_once natBackend openHandler (by decide)).2.2.2.2.2.2.1⟩
